import Mathlib

/-
Verification development for the fact-matching engine in
sling/nlp/wikicat/fact_matcher.py: the match classifier, date comparator,
subsumption check, aggregation histogram and per-record cache.
-/

set_option autoImplicit false

namespace FactMatcherModel

/-- Match type of a proposed fact vs any existing fact (enum FactMatchType). -/
inductive FactMatchType where
  | NEW
  | EXACT
  | SUBSUMES_EXISTING
  | SUBSUMED_BY_EXISTING
  | CONFLICT
  | ADDITIONAL
deriving DecidableEq, Repr

/-- Date precision levels of the sling library, coarsest to finest. -/
inductive Precision where
  | MILLENNIUM
  | CENTURY
  | DECADE
  | YEAR
  | MONTH
  | DAY
deriving DecidableEq, Repr

/-- Numeric encoding of precision; the source compares precisions with
numeric order, finer precision being numerically larger. -/
def Precision.toNat : Precision → Nat
  | Precision.MILLENNIUM => 1
  | Precision.CENTURY => 2
  | Precision.DECADE => 3
  | Precision.YEAR => 4
  | Precision.MONTH => 5
  | Precision.DAY => 6

/-- A temporal value: year, month, day magnitude plus a precision level
(the sling Date object as used by the matcher). -/
structure Date where
  year : Int
  month : Nat
  day : Nat
  precision : Precision
deriving DecidableEq, Repr

/-- Modelled from the spec: the Date .value normalization of the sling
python library (python/sling, not under src/). The spec describes it as a
single comparable magnitude combining year, month, day and precision; we
use an injective combination of the four fields. -/
def Date.value (d : Date) : Int :=
  ((d.year * 13 + (d.month : Int)) * 32 + (d.day : Int)) * 7 + (d.precision.toNat : Int)

/-- FactMatcher method _finer_date: whether first is a finer-precision date
than second, and falls inside the calendar granule second denotes. -/
def finer_date (first second : Date) : Bool :=
  if first.precision.toNat ≤ second.precision.toNat then false
  else if second.precision = Precision.MILLENNIUM then
    decide (first.year ≥ second.year ∧ first.year < second.year + 1000)
  else if second.precision = Precision.CENTURY then
    decide (first.year ≥ second.year ∧ first.year < second.year + 100)
  else if second.precision = Precision.DECADE then
    decide (first.year ≥ second.year ∧ first.year < second.year + 10)
  else if second.precision = Precision.YEAR then
    decide (first.year = second.year)
  else if second.precision = Precision.MONTH then
    decide (first.year = second.year ∧ first.month = second.month)
  else
    false

/-- A raw value stored in the knowledge base: a frame (entity reference,
identified by a numeric id), an integer, or a string. Date-valued
properties may hold any of the three; item-valued facts hold frames. -/
inductive SValue where
  | frame (id : Nat)
  | intv (n : Int)
  | strv (s : String)
deriving DecidableEq, Repr

/-- The FactMatcher state after __init__: the property sets computed from
the knowledge base, the distinguished properties looked up from the kb,
and the external services (alias resolution, the fact extractor method
facts_for, the closure checker in_closure, and Date construction from a
raw value). Entities and properties are identified by numeric ids. -/
structure FactMatcher where
  resolve : Nat → Nat
  facts_for : Nat → List Nat → Bool → List (List Nat × SValue)
  in_closure : Nat → Nat → Nat → Bool
  dateOf : SValue → Date
  unique_properties : List Nat
  date_properties : List Nat
  location_properties : List Nat
  p_subclass : Nat
  p_parent_org : Nat
  p_located_in : Nat
  p_educated_at : Nat
  p_part_of : Nat

/-- The closure_properties mapping built in __init__: every location-valued
property maps to located-in (P131), and educated-at (P69) is set to
part-of (P361) afterwards, overriding any earlier entry for it. -/
def FactMatcher.closure_properties (M : FactMatcher) (p : Nat) : Option Nat :=
  if p = M.p_educated_at then some M.p_part_of
  else if p ∈ M.location_properties then some M.p_located_in
  else none

/-- FactMatcher.subsumes: whether coarse subsumes fine by following the
closure edges assigned to prop. -/
def FactMatcher.subsumes (M : FactMatcher) (prop coarse fine : Nat) : Bool :=
  let c := M.resolve coarse
  let f := M.resolve fine
  if c = f then true
  else
    match M.closure_properties prop with
    | some cp => M.in_closure cp c f
    | none => M.in_closure M.p_subclass c f || M.in_closure M.p_parent_org c f

/-- FactMatcher._existing_facts: existing targets for the given pid path
for the given item; keeps the last component of each fact tuple whose
property prefix equals the full requested path. -/
def FactMatcher.existing_facts (M : FactMatcher) (item : Nat) (prop : List Nat)
    (closure : Bool) : List SValue :=
  match prop with
  | [] => []
  | pid :: _ =>
    (M.facts_for item [pid] closure).filterMap (fun fact =>
      if fact.fst = prop then some fact.snd else none)

/-- Helper for the SUBSUMES_EXISTING loop body: the source only calls
subsumes when the existing value is a frame. -/
def subsumes_value (M : FactMatcher) (pid value : Nat) : SValue → Bool
  | SValue.frame f => M.subsumes pid value f
  | _ => false

/-- Helper for the SUBSUMED_BY_EXISTING loop body: roles reversed. -/
def subsumes_value_rev (M : FactMatcher) (pid value : Nat) : SValue → Bool
  | SValue.frame f => M.subsumes pid f value
  | _ => false

/-- Guard of step 1 of for_item: no existing facts without backoff. -/
@[reducible] def FactMatcher.rule_new (M : FactMatcher) (item : Nat)
    (prop : List Nat) : Prop :=
  M.existing_facts item prop false = []

/-- Guard of step 2 of for_item: the proposed value is literally among
the existing facts. -/
@[reducible] def FactMatcher.rule_exact (M : FactMatcher) (item : Nat)
    (prop : List Nat) (value : Nat) : Prop :=
  SValue.frame value ∈ M.existing_facts item prop false

/-- Guard of step 3 of for_item: date-valued terminal property and some
existing date has the same normalized scalar value as the proposed one. -/
@[reducible] def FactMatcher.rule_exact_date (M : FactMatcher) (item : Nat)
    (prop : List Nat) (value : Nat) : Prop :=
  prop.getLastD 0 ∈ M.date_properties ∧
    ∃ e ∈ (M.existing_facts item prop false).map M.dateOf,
      e.value = (M.dateOf (SValue.frame value)).value

/-- Guard of step 4 of for_item: some existing date is finer than the
proposed one, or, for a non-date terminal property, the proposed value
subsumes some existing frame value. -/
@[reducible] def FactMatcher.rule_subsumes (M : FactMatcher) (item : Nat)
    (prop : List Nat) (value : Nat) : Prop :=
  (prop.getLastD 0 ∈ M.date_properties ∧
    ∃ e ∈ (M.existing_facts item prop false).map M.dateOf,
      finer_date e (M.dateOf (SValue.frame value)) = true)
  ∨ (prop.getLastD 0 ∉ M.date_properties ∧
    ∃ ex ∈ M.existing_facts item prop false,
      subsumes_value M (prop.getLastD 0) value ex = true)

/-- Guard of step 5 of for_item: the symmetric check, roles reversed. -/
@[reducible] def FactMatcher.rule_subsumed (M : FactMatcher) (item : Nat)
    (prop : List Nat) (value : Nat) : Prop :=
  (prop.getLastD 0 ∈ M.date_properties ∧
    ∃ e ∈ (M.existing_facts item prop false).map M.dateOf,
      finer_date (M.dateOf (SValue.frame value)) e = true)
  ∨ (prop.getLastD 0 ∉ M.date_properties ∧
    ∃ ex ∈ M.existing_facts item prop false,
      subsumes_value_rev M (prop.getLastD 0) value ex = true)

/-- Guard of step 6 of for_item: single-property path with a
unique-valued property. -/
@[reducible] def FactMatcher.rule_conflict (M : FactMatcher)
    (prop : List Nat) : Prop :=
  prop.length = 1 ∧ prop.getD 0 0 ∈ M.unique_properties

/-- FactMatcher.for_item: match type for the proposed fact
(item, prop, value) against existing facts for the same item and
property path, decided by the fixed precedence order of the source. The
proposed value is a frame (asserted in the source), so it is passed as
its frame id. -/
def FactMatcher.for_item (M : FactMatcher) (item : Nat) (prop : List Nat)
    (value : Nat) : FactMatchType :=
  if M.rule_new item prop then FactMatchType.NEW
  else if M.rule_exact item prop value then FactMatchType.EXACT
  else if M.rule_exact_date item prop value then FactMatchType.EXACT
  else if M.rule_subsumes item prop value then FactMatchType.SUBSUMES_EXISTING
  else if M.rule_subsumed item prop value then FactMatchType.SUBSUMED_BY_EXISTING
  else if M.rule_conflict prop then FactMatchType.CONFLICT
  else FactMatchType.ADDITIONAL

/-- FactMatcher.MAX_SOURCE_ITEMS: cap on exemplar lists. -/
def MAX_SOURCE_ITEMS : Nat := 10

/-- FactMatcher.TYPES_WITH_EXEMPLARS_ONLY: match types whose exemplar
lists are capped. -/
def TYPES_WITH_EXEMPLARS_ONLY : List FactMatchType :=
  [FactMatchType.EXACT, FactMatchType.CONFLICT, FactMatchType.SUBSUMES_EXISTING]

/-- FactMatcher.Output: histogram over match types plus exemplar source
items per match type. Both mappings default to empty, as the python
defaultdicts do. -/
structure Output where
  counts : FactMatchType → Nat
  source_items : FactMatchType → List Nat

/-- A fresh Output, as built by Output.__init__. -/
def Output.empty : Output :=
  { counts := fun _ => 0, source_items := fun _ => [] }

/-- Output.add: bump the count for the match type, and append the source
item unless the type is capped and already holds MAX_SOURCE_ITEMS. -/
def Output.add (o : Output) (match_type : FactMatchType) (source_item : Nat) : Output :=
  { counts := fun t => if t = match_type then o.counts match_type + 1 else o.counts t
    source_items :=
      if match_type ∉ TYPES_WITH_EXEMPLARS_ONLY
          ∨ (o.source_items match_type).length < MAX_SOURCE_ITEMS then
        fun t =>
          if t = match_type then o.source_items match_type ++ [source_item]
          else o.source_items t
      else o.source_items }

/-- Folding Output.add over a list of (match type, source item) pairs. -/
def Output.addAll (pairs : List (FactMatchType × Nat)) : Output :=
  pairs.foldl (fun o p => o.add p.1 p.2) Output.empty

/-- FactMatcher.for_items: histogram of match types over multiple items. -/
def FactMatcher.for_items (M : FactMatcher) (items : List Nat) (prop : List Nat)
    (value : Nat) : Output :=
  items.foldl (fun o item => o.add (M.for_item item prop value) item) Output.empty

/-- A span key in a parse: the pid path and the proposed qid, which the
source uses as the cache key (span.pids, span.qid). -/
abbrev SpanKey := List Nat × Nat

/-- The per-record cache: span key to match statistics. -/
abbrev Cache := List (SpanKey × Output)

/-- Lookup in the cache, python dict membership plus access. -/
def cache_find : Cache → SpanKey → Option Output
  | [], _ => none
  | (k, v) :: rest, key => if k = key then some v else cache_find rest key

/-- The inner loop of for_parses over the spans of one parse, threading
the cache; also returns the list of keys on which for_items was actually
invoked, newest first consing on the left. -/
def FactMatcher.span_loop (M : FactMatcher) (items : List Nat) :
    List SpanKey → Cache → List Output × Cache × List SpanKey
  | [], cache => ([], cache, [])
  | span :: rest, cache =>
    match cache_find cache span with
    | some stats =>
      let r := M.span_loop items rest cache
      (stats :: r.1, r.2.1, r.2.2)
    | none =>
      let stats := M.for_items items span.1 span.2
      let r := M.span_loop items rest ((span, stats) :: cache)
      (stats :: r.1, r.2.1, span :: r.2.2)

/-- The outer loop of for_parses over the parses of one category record. -/
def FactMatcher.parse_loop (M : FactMatcher) (items : List Nat) :
    List (List SpanKey) → Cache → List (List Output) × Cache × List SpanKey
  | [], cache => ([], cache, [])
  | parse :: rest, cache =>
    let r := M.span_loop items parse cache
    let r2 := M.parse_loop items rest r.2.1
    (r.1 :: r2.1, r2.2.1, r.2.2 ++ r2.2.2)

/-- One category record: its member items and its candidate parses, each
parse an ordered list of spans. -/
structure Category where
  members : List Nat
  parses : List (List SpanKey)

/-- FactMatcher.for_parses: per parse, the list of match statistics of
its spans, computed over the members of the category with a cache that
is created fresh for this record. -/
def FactMatcher.for_parses (M : FactMatcher) (category : Category) :
    List (List Output) :=
  (M.parse_loop category.members category.parses []).1

/-- The keys on which for_parses invoked for_items (the cache misses). -/
def FactMatcher.for_parses_calls (M : FactMatcher) (category : Category) :
    List SpanKey :=
  (M.parse_loop category.members category.parses []).2.2

/-- FactMatcherTask.run over a stream of records: each record is
processed independently by for_parses with its own fresh cache. -/
def FactMatcher.run_records (M : FactMatcher) (records : List Category) :
    List (List (List Output)) :=
  records.map (fun c => M.for_parses c)

/-- A minimal concrete matcher whose extractor returns no facts at all. -/
def M0 : FactMatcher :=
  { resolve := id
    facts_for := fun _ _ _ => []
    in_closure := fun _ _ _ => false
    dateOf := fun _ => ⟨0, 0, 0, Precision.YEAR⟩
    unique_properties := []
    date_properties := []
    location_properties := []
    p_subclass := 279
    p_parent_org := 749
    p_located_in := 131
    p_educated_at := 69
    p_part_of := 361 }

/-- Claim C1: for every source entity and every non-empty property path,
if the existing facts fetched without closure backoff are empty, for_item
returns NEW, regardless of the proposed value. -/
theorem claim_C1 (M : FactMatcher) (item : Nat) (prop : List Nat) (value : Nat)
    (hne : prop ≠ []) (hempty : M.existing_facts item prop false = []) :
    M.for_item item prop value = FactMatchType.NEW := by
  unfold FactMatcher.for_item
  rw [if_pos hempty]

/-- Witness for claim C1 at a concrete matcher and input. -/
theorem claim_C1_witness :
    ([2] : List Nat) ≠ [] ∧ M0.existing_facts 5 [2] false = [] ∧
      M0.for_item 5 [2] 7 = FactMatchType.NEW :=
  ⟨by decide, by rfl, claim_C1 M0 5 [2] 7 (by decide) (by rfl)⟩

/-- If the proposed value is literally among the existing facts, for_item
returns EXACT. -/
theorem for_item_eq_EXACT_of_mem (M : FactMatcher) (item : Nat) (prop : List Nat)
    (value : Nat) (hmem : SValue.frame value ∈ M.existing_facts item prop false) :
    M.for_item item prop value = FactMatchType.EXACT := by
  unfold FactMatcher.for_item
  have hne : M.existing_facts item prop false ≠ [] := List.ne_nil_of_mem hmem
  rw [if_neg hne, if_pos hmem]

/-- Claim C2: if the proposed value is literally contained in the existing
fact set, for_item returns EXACT, and the answer is the same under any
reordering of the existing fact set (here: a second matcher and input
whose existing facts are a permutation of the first). -/
theorem claim_C2 (M M2 : FactMatcher) (item item2 : Nat) (prop prop2 : List Nat)
    (value : Nat)
    (hperm : (M.existing_facts item prop false).Perm (M2.existing_facts item2 prop2 false))
    (hmem : SValue.frame value ∈ M.existing_facts item prop false) :
    M.for_item item prop value = FactMatchType.EXACT ∧
      M2.for_item item2 prop2 value = FactMatchType.EXACT :=
  ⟨for_item_eq_EXACT_of_mem M item prop value hmem,
   for_item_eq_EXACT_of_mem M2 item2 prop2 value (hperm.mem_iff.mp hmem)⟩

/-- A concrete matcher holding the existing facts in one order. -/
def M1 : FactMatcher :=
  { M0 with
    facts_for := fun item prop _ =>
      if item = 5 ∧ prop = [3] then [([3], SValue.frame 7), ([3], SValue.frame 8)] else [] }

/-- The same matcher with the existing facts in the opposite order. -/
def M1r : FactMatcher :=
  { M0 with
    facts_for := fun item prop _ =>
      if item = 5 ∧ prop = [3] then [([3], SValue.frame 8), ([3], SValue.frame 7)] else [] }

/-- Witness for claim C2 at a concrete pair of matchers whose existing
fact sets are reorderings of each other. -/
theorem claim_C2_witness :
    (M1.existing_facts 5 [3] false).Perm (M1r.existing_facts 5 [3] false) ∧
      SValue.frame 7 ∈ M1.existing_facts 5 [3] false ∧
      M1.for_item 5 [3] 7 = FactMatchType.EXACT ∧
      M1r.for_item 5 [3] 7 = FactMatchType.EXACT := by
  refine ⟨?_, ?_, ?_⟩
  · decide
  · decide
  · exact claim_C2 M1 M1r 5 5 [3] [3] 7 (by decide) (by decide)

/-- Claim C4: finer_date holds exactly when the first date has strictly
finer precision than the second and its instant falls in the calendar
granule the second denotes, and it is false whenever the second date has
DAY precision. -/
theorem claim_C4 (d1 d2 : Date) :
    (finer_date d1 d2 = true ↔
      (d2.precision.toNat < d1.precision.toNat ∧
        ((d2.precision = Precision.MILLENNIUM ∧ d2.year ≤ d1.year ∧ d1.year < d2.year + 1000) ∨
         (d2.precision = Precision.CENTURY ∧ d2.year ≤ d1.year ∧ d1.year < d2.year + 100) ∨
         (d2.precision = Precision.DECADE ∧ d2.year ≤ d1.year ∧ d1.year < d2.year + 10) ∨
         (d2.precision = Precision.YEAR ∧ d1.year = d2.year) ∨
         (d2.precision = Precision.MONTH ∧ d1.year = d2.year ∧ d1.month = d2.month)))) ∧
    (d2.precision = Precision.DAY → finer_date d1 d2 = false) := by
  obtain ⟨y1, m1, dd1, p1⟩ := d1
  obtain ⟨y2, m2, dd2, p2⟩ := d2
  cases p1 <;> cases p2 <;>
    simp [finer_date, Precision.toNat] <;> omega

/-- Witness for claim C4: its DAY clause applied at concrete dates. -/
theorem claim_C4_witness :
    finer_date ⟨2000, 1, 1, Precision.DAY⟩ ⟨1990, 3, 5, Precision.DAY⟩ = false :=
  (claim_C4 ⟨2000, 1, 1, Precision.DAY⟩ ⟨1990, 3, 5, Precision.DAY⟩).2 rfl

/-- finer_date only holds when the first precision is strictly finer. -/
theorem finer_date_prec_lt {a b : Date} (h : finer_date a b = true) :
    b.precision.toNat < a.precision.toNat := by
  by_cases hle : a.precision.toNat ≤ b.precision.toNat
  · unfold finer_date at h
    simp [hle] at h
  · omega

/-- Claim C5: finer_date is asymmetric and irreflexive: it never holds in
both directions, and never of a date with itself. -/
theorem claim_C5 (a b : Date) :
    (finer_date a b = false ∨ finer_date b a = false) ∧ finer_date a a = false := by
  constructor
  · cases hab : finer_date a b
    · exact Or.inl rfl
    · cases hba : finer_date b a
      · exact Or.inr rfl
      · have h1 := finer_date_prec_lt hab
        have h2 := finer_date_prec_lt hba
        omega
  · unfold finer_date
    simp

/-- Claim C6: subsumes resolves both values and returns true when they
are then equal; otherwise, with an assigned closure relation it returns
in_closure over exactly that relation, and with none it returns the OR of
reachability via subclass-of and via parent-organization; the assignment
maps educated-at to part-of and every other location-valued property to
located-in, and no other property has an assigned relation. -/
theorem claim_C6 (M : FactMatcher) (prop coarse fine : Nat) :
    (M.resolve coarse = M.resolve fine → M.subsumes prop coarse fine = true) ∧
    (∀ cp, M.resolve coarse ≠ M.resolve fine → M.closure_properties prop = some cp →
      M.subsumes prop coarse fine = M.in_closure cp (M.resolve coarse) (M.resolve fine)) ∧
    (M.resolve coarse ≠ M.resolve fine → M.closure_properties prop = none →
      M.subsumes prop coarse fine =
        (M.in_closure M.p_subclass (M.resolve coarse) (M.resolve fine)
          || M.in_closure M.p_parent_org (M.resolve coarse) (M.resolve fine))) ∧
    (M.closure_properties M.p_educated_at = some M.p_part_of) ∧
    (prop ∈ M.location_properties → prop ≠ M.p_educated_at →
      M.closure_properties prop = some M.p_located_in) ∧
    (prop ∉ M.location_properties → prop ≠ M.p_educated_at →
      M.closure_properties prop = none) := by
  refine ⟨?_, ?_, ?_, ?_, ?_, ?_⟩
  · intro h
    unfold FactMatcher.subsumes
    simp [h]
  · intro cp hne hcp
    unfold FactMatcher.subsumes
    simp [hne, hcp]
  · intro hne hcp
    unfold FactMatcher.subsumes
    simp [hne, hcp]
  · unfold FactMatcher.closure_properties
    simp
  · intro hloc hne
    unfold FactMatcher.closure_properties
    simp [hloc, hne]
  · intro hloc hne
    unfold FactMatcher.closure_properties
    simp [hloc, hne]

/-- A concrete matcher with one location-valued property 276 and a
closure oracle that only connects relation 131 from 10 to 20. -/
def M6 : FactMatcher :=
  { M0 with
    location_properties := [276]
    in_closure := fun rel a b => decide (rel = 131 ∧ a = 10 ∧ b = 20) }

/-- Witness for claim C6 at concrete properties and values, exercising
the equality case, the assigned-closure case and the default OR case. -/
theorem claim_C6_witness :
    M6.subsumes 276 10 10 = true ∧
      (M6.closure_properties 276 = some 131 ∧
        M6.subsumes 276 10 20 = M6.in_closure 131 (M6.resolve 10) (M6.resolve 20)) ∧
      (M6.closure_properties 69 = some 361) ∧
      (M6.closure_properties 570 = none ∧
        M6.subsumes 570 10 20 =
          (M6.in_closure M6.p_subclass (M6.resolve 10) (M6.resolve 20)
            || M6.in_closure M6.p_parent_org (M6.resolve 10) (M6.resolve 20))) :=
  ⟨(claim_C6 M6 276 10 10).1 rfl,
   ⟨(claim_C6 M6 276 10 20).2.2.2.2.1 (by decide) (by decide),
    (claim_C6 M6 276 10 20).2.1 131 (by decide)
      ((claim_C6 M6 276 10 20).2.2.2.2.1 (by decide) (by decide))⟩,
   (claim_C6 M6 276 10 20).2.2.2.1,
   ⟨(claim_C6 M6 570 10 20).2.2.2.2.2 (by decide) (by decide),
    (claim_C6 M6 570 10 20).2.2.1 (by decide)
      ((claim_C6 M6 570 10 20).2.2.2.2.2 (by decide) (by decide))⟩⟩

/-- Claim C7: for a non-date terminal property, with NEW and EXACT ruled
out, for_item returns SUBSUMES_EXISTING when subsumes holds from the
proposed value to some existing frame value. -/
theorem claim_C7 (M : FactMatcher) (item : Nat) (prop : List Nat) (value f : Nat)
    (hne : M.existing_facts item prop false ≠ [])
    (hnmem : SValue.frame value ∉ M.existing_facts item prop false)
    (hnd : prop.getLastD 0 ∉ M.date_properties)
    (hf : SValue.frame f ∈ M.existing_facts item prop false)
    (hsub : M.subsumes (prop.getLastD 0) value f = true) :
    M.for_item item prop value = FactMatchType.SUBSUMES_EXISTING := by
  have hstep4 : M.rule_subsumes item prop value :=
    Or.inr ⟨hnd, SValue.frame f, hf, by simpa [subsumes_value] using hsub⟩
  unfold FactMatcher.for_item
  rw [if_neg hne, if_neg hnmem, if_neg (fun h => hnd h.1), if_pos hstep4]

/-- A concrete matcher for the C7 witness: one existing frame fact and a
closure oracle connecting relation 279 from 60 to 50. -/
def M7 : FactMatcher :=
  { M0 with
    facts_for := fun item prop _ =>
      if item = 1 ∧ prop = [27] then [([27], SValue.frame 50)] else []
    in_closure := fun rel a b => decide (rel = 279 ∧ a = 60 ∧ b = 50) }

/-- Witness for claim C7 at a concrete matcher and input. -/
theorem claim_C7_witness :
    M7.existing_facts 1 [27] false ≠ [] ∧
      SValue.frame 60 ∉ M7.existing_facts 1 [27] false ∧
      M7.subsumes 27 60 50 = true ∧
      M7.for_item 1 [27] 60 = FactMatchType.SUBSUMES_EXISTING :=
  ⟨by decide, by decide, by decide,
   claim_C7 M7 1 [27] 60 50 (by decide) (by decide) (by decide) (by decide) (by decide)⟩

/-- The conjunction of the failure of the NEW, EXACT (literal and date
scalar), SUBSUMES_EXISTING and SUBSUMED_BY_EXISTING rules of for_item, in
the exact form the source tests them. -/
@[reducible] def FactMatcher.no_early_rule (M : FactMatcher) (item : Nat)
    (prop : List Nat) (value : Nat) : Prop :=
  ¬M.rule_new item prop ∧ ¬M.rule_exact item prop value ∧
    ¬M.rule_exact_date item prop value ∧ ¬M.rule_subsumes item prop value ∧
    ¬M.rule_subsumed item prop value

/-- Claim C8: for_item returns CONFLICT exactly when every earlier rule
fails, the path has length one and its property is unique-valued; in
every other fall-through case it returns ADDITIONAL. -/
theorem claim_C8 (M : FactMatcher) (item : Nat) (prop : List Nat) (value : Nat) :
    (M.for_item item prop value = FactMatchType.CONFLICT ↔
      (M.no_early_rule item prop value ∧ prop.length = 1 ∧
        prop.getD 0 0 ∈ M.unique_properties)) ∧
    (M.no_early_rule item prop value →
      ¬(prop.length = 1 ∧ prop.getD 0 0 ∈ M.unique_properties) →
      M.for_item item prop value = FactMatchType.ADDITIONAL) := by
  constructor
  · constructor
    · intro hres
      unfold FactMatcher.for_item at hres
      by_cases h1 : M.rule_new item prop
      · rw [if_pos h1] at hres; exact absurd hres (by decide)
      rw [if_neg h1] at hres
      by_cases h2 : M.rule_exact item prop value
      · rw [if_pos h2] at hres; exact absurd hres (by decide)
      rw [if_neg h2] at hres
      by_cases h3 : M.rule_exact_date item prop value
      · rw [if_pos h3] at hres; exact absurd hres (by decide)
      rw [if_neg h3] at hres
      by_cases h4 : M.rule_subsumes item prop value
      · rw [if_pos h4] at hres; exact absurd hres (by decide)
      rw [if_neg h4] at hres
      by_cases h5 : M.rule_subsumed item prop value
      · rw [if_pos h5] at hres; exact absurd hres (by decide)
      rw [if_neg h5] at hres
      by_cases h6 : M.rule_conflict prop
      · exact ⟨⟨h1, h2, h3, h4, h5⟩, h6⟩
      · rw [if_neg h6] at hres; exact absurd hres (by decide)
    · rintro ⟨⟨h1, h2, h3, h4, h5⟩, h6⟩
      unfold FactMatcher.for_item
      rw [if_neg h1, if_neg h2, if_neg h3, if_neg h4, if_neg h5, if_pos h6]
  · rintro ⟨h1, h2, h3, h4, h5⟩ h6
    unfold FactMatcher.for_item
    rw [if_neg h1, if_neg h2, if_neg h3, if_neg h4, if_neg h5, if_neg h6]

/-- A concrete matcher for the C8 witness: unique-valued property 26 with
an existing conflicting fact, and non-unique property 27 likewise. -/
def M8 : FactMatcher :=
  { M0 with
    facts_for := fun item prop _ =>
      if item = 1 ∧ (prop = [26] ∨ prop = [27]) then [(prop, SValue.frame 50)] else []
    unique_properties := [26] }

/-- Witness for claim C8: a concrete CONFLICT on the unique property and
a concrete ADDITIONAL on the non-unique one. -/
theorem claim_C8_witness :
    M8.for_item 1 [26] 60 = FactMatchType.CONFLICT ∧
      M8.for_item 1 [27] 60 = FactMatchType.ADDITIONAL :=
  ⟨(claim_C8 M8 1 [26] 60).1.mpr ⟨by decide, by decide, by decide⟩,
   (claim_C8 M8 1 [27] 60).2 (by decide) (by decide)⟩

/-- A concrete matcher for the C3 scenario: property 569 is date-valued,
the only existing fact is the integer 1990 denoting the YEAR-precision
date 1990, and frame 100 denotes the MONTH-precision date March 1990. -/
def M3 : FactMatcher :=
  { M0 with
    facts_for := fun item prop _ =>
      if item = 1 ∧ prop = [569] then [([569], SValue.intv 1990)] else []
    date_properties := [569]
    dateOf := fun v =>
      match v with
      | SValue.intv 1990 => ⟨1990, 0, 0, Precision.YEAR⟩
      | SValue.frame 100 => ⟨1990, 3, 0, Precision.MONTH⟩
      | _ => ⟨0, 0, 0, Precision.YEAR⟩ }

/-- Counterexample to claim C3 as stated: on the claimed scenario (only
existing fact YEAR 1990, proposed MONTH March 1990) for_item does not
return SUBSUMES_EXISTING. -/
theorem claim_C3_counterexample :
    M3.for_item 1 [569] 100 ≠ FactMatchType.SUBSUMES_EXISTING := by decide

/-- Claim C3 amended: classifying the proposed MONTH-precision value
March 1990 against a single existing YEAR-precision value 1990 for a
date-valued property returns SUBSUMED_BY_EXISTING (the coarser existing
value subsumes the finer proposed one). -/
theorem claim_C3 (M : FactMatcher) (item p value : Nat) (ex : SValue)
    (hfacts : M.existing_facts item [p] false = [ex])
    (hneq : SValue.frame value ≠ ex)
    (hdate : p ∈ M.date_properties)
    (hex : M.dateOf ex = ⟨1990, 0, 0, Precision.YEAR⟩)
    (hprop : M.dateOf (SValue.frame value) = ⟨1990, 3, 0, Precision.MONTH⟩) :
    M.for_item item [p] value = FactMatchType.SUBSUMED_BY_EXISTING := by
  have h1 : ¬M.rule_new item [p] := by
    unfold FactMatcher.rule_new
    rw [hfacts]
    simp
  have h2 : ¬M.rule_exact item [p] value := by
    unfold FactMatcher.rule_exact
    rw [hfacts]
    simp [hneq]
  have h3 : ¬M.rule_exact_date item [p] value := by
    unfold FactMatcher.rule_exact_date
    rw [hfacts]
    simp [hex, hprop, Date.value, Precision.toNat]
  have h4 : ¬M.rule_subsumes item [p] value := by
    unfold FactMatcher.rule_subsumes
    rw [hfacts]
    simp [hdate, hex, hprop]
    decide
  have h5 : M.rule_subsumed item [p] value := by
    unfold FactMatcher.rule_subsumed
    refine Or.inl ⟨hdate, M.dateOf ex, ?_, ?_⟩
    · rw [hfacts]
      simp
    · rw [hex, hprop]
      decide
  unfold FactMatcher.for_item
  rw [if_neg h1, if_neg h2, if_neg h3, if_neg h4, if_pos h5]

/-- Witness for the amended claim C3 at the concrete matcher M3. -/
theorem claim_C3_witness :
    M3.existing_facts 1 [569] false = [SValue.intv 1990] ∧
      M3.dateOf (SValue.intv 1990) = ⟨1990, 0, 0, Precision.YEAR⟩ ∧
      M3.dateOf (SValue.frame 100) = ⟨1990, 3, 0, Precision.MONTH⟩ ∧
      M3.for_item 1 [569] 100 = FactMatchType.SUBSUMED_BY_EXISTING :=
  ⟨by decide, by decide, by decide,
   claim_C3 M3 1 569 100 (SValue.intv 1990) (by decide) (by decide) (by decide)
     (by decide) (by decide)⟩

/-- One Output.add step preserves the exemplar invariant: capped types
stay within MAX_SOURCE_ITEMS, uncapped types keep length equal to count. -/
theorem outputInv_add (o : Output) (t0 : FactMatchType) (s : Nat)
    (hcap : ∀ t, t ∈ TYPES_WITH_EXEMPLARS_ONLY →
      (o.source_items t).length ≤ MAX_SOURCE_ITEMS)
    (hunc : ∀ t, t ∉ TYPES_WITH_EXEMPLARS_ONLY →
      (o.source_items t).length = o.counts t) :
    (∀ t, t ∈ TYPES_WITH_EXEMPLARS_ONLY →
      ((o.add t0 s).source_items t).length ≤ MAX_SOURCE_ITEMS) ∧
    (∀ t, t ∉ TYPES_WITH_EXEMPLARS_ONLY →
      ((o.add t0 s).source_items t).length = (o.add t0 s).counts t) := by
  constructor
  · intro t ht
    by_cases hc : t0 ∉ TYPES_WITH_EXEMPLARS_ONLY ∨
        (o.source_items t0).length < MAX_SOURCE_ITEMS
    · by_cases hte : t = t0
      · subst hte
        have hlt : (o.source_items t).length < MAX_SOURCE_ITEMS :=
          hc.resolve_left (not_not_intro ht)
        simp only [MAX_SOURCE_ITEMS] at hlt ⊢
        simp [Output.add, hc]
        omega
      · simp [Output.add, hc, hte]
        exact hcap t ht
    · simp [Output.add, hc]
      exact hcap t ht
  · intro t ht
    by_cases hte : t = t0
    · subst hte
      have hc : t ∉ TYPES_WITH_EXEMPLARS_ONLY ∨
          (o.source_items t).length < MAX_SOURCE_ITEMS := Or.inl ht
      have h := hunc t ht
      simp [Output.add, hc]
      omega
    · by_cases hc : t0 ∉ TYPES_WITH_EXEMPLARS_ONLY ∨
          (o.source_items t0).length < MAX_SOURCE_ITEMS
      · simp [Output.add, hc, hte]
        exact hunc t ht
      · simp [Output.add, hc, hte]
        exact hunc t ht

/-- Folding Output.add preserves the exemplar invariant. -/
theorem outputInv_foldl (pairs : List (FactMatchType × Nat)) :
    ∀ (o : Output),
      (∀ t, t ∈ TYPES_WITH_EXEMPLARS_ONLY →
        (o.source_items t).length ≤ MAX_SOURCE_ITEMS) →
      (∀ t, t ∉ TYPES_WITH_EXEMPLARS_ONLY →
        (o.source_items t).length = o.counts t) →
      (∀ t, t ∈ TYPES_WITH_EXEMPLARS_ONLY →
        ((pairs.foldl (fun o p => o.add p.1 p.2) o).source_items t).length ≤
          MAX_SOURCE_ITEMS) ∧
      (∀ t, t ∉ TYPES_WITH_EXEMPLARS_ONLY →
        ((pairs.foldl (fun o p => o.add p.1 p.2) o).source_items t).length =
          (pairs.foldl (fun o p => o.add p.1 p.2) o).counts t) := by
  induction pairs with
  | nil => exact fun o hcap hunc => ⟨hcap, hunc⟩
  | cons p rest ih =>
    intro o hcap hunc
    have h := outputInv_add o p.1 p.2 hcap hunc
    simpa using ih (o.add p.1 p.2) h.1 h.2

/-- Claim C9: after any sequence of additions to an Output, exemplar
lists of capped match types hold at most MAX_SOURCE_ITEMS entries, and
exemplar lists of uncapped match types have length equal to the count. -/
theorem claim_C9 (pairs : List (FactMatchType × Nat)) :
    (∀ t, t ∈ TYPES_WITH_EXEMPLARS_ONLY →
      ((Output.addAll pairs).source_items t).length ≤ MAX_SOURCE_ITEMS) ∧
    (∀ t, t ∉ TYPES_WITH_EXEMPLARS_ONLY →
      ((Output.addAll pairs).source_items t).length = (Output.addAll pairs).counts t) :=
  outputInv_foldl pairs Output.empty (by simp [Output.empty]) (by simp [Output.empty])

/-- Twelve EXACT additions and three NEW additions. -/
def c9pairs : List (FactMatchType × Nat) :=
  ((List.range 12).map (fun i => (FactMatchType.EXACT, i))) ++
    ((List.range 3).map (fun i => (FactMatchType.NEW, i)))

/-- Witness for claim C9 at a concrete sequence of additions that
overflows the cap of the EXACT exemplar list. -/
theorem claim_C9_witness :
    ((Output.addAll c9pairs).source_items FactMatchType.EXACT).length ≤
        MAX_SOURCE_ITEMS ∧
      ((Output.addAll c9pairs).source_items FactMatchType.NEW).length =
        (Output.addAll c9pairs).counts FactMatchType.NEW :=
  ⟨(claim_C9 c9pairs).1 FactMatchType.EXACT (by decide),
   (claim_C9 c9pairs).2 FactMatchType.NEW (by decide)⟩

/-- A cache is correct when every entry equals the uncached evaluation of
for_items on its key. -/
def cache_ok (M : FactMatcher) (items : List Nat) (c : Cache) : Prop :=
  ∀ k v, cache_find c k = some v → v = M.for_items items k.1 k.2

/-- Unfolding cache_find over a cons cell. -/
theorem cache_find_cons (k0 : SpanKey) (v0 : Output) (c : Cache) (k : SpanKey) :
    cache_find ((k0, v0) :: c) k = if k0 = k then some v0 else cache_find c k := rfl

/-- Full characterization of the span loop: given a correct cache, the
outputs equal the uncached evaluations, the final cache is correct, the
final cache domain is the initial domain plus the span keys, and the
invoked keys are exactly the span keys missing from the initial cache,
each invoked once. -/
theorem span_loop_spec (M : FactMatcher) (items : List Nat) :
    ∀ (spans : List SpanKey) (cache : Cache), cache_ok M items cache →
      (M.span_loop items spans cache).1 =
        spans.map (fun s => M.for_items items s.1 s.2) ∧
      cache_ok M items (M.span_loop items spans cache).2.1 ∧
      (∀ k, cache_find (M.span_loop items spans cache).2.1 k = none ↔
        (cache_find cache k = none ∧ k ∉ spans)) ∧
      (M.span_loop items spans cache).2.2.Nodup ∧
      (∀ k, k ∈ (M.span_loop items spans cache).2.2 ↔
        (k ∈ spans ∧ cache_find cache k = none)) := by
  intro spans
  induction spans with
  | nil =>
    intro cache hok
    refine ⟨rfl, hok, ?_, List.nodup_nil, ?_⟩
    · intro k
      simp [FactMatcher.span_loop]
    · intro k
      simp [FactMatcher.span_loop]
  | cons s rest ih =>
    intro cache hok
    cases hfind : cache_find cache s with
    | some stats =>
      have hstats : stats = M.for_items items s.1 s.2 := hok s stats hfind
      obtain ⟨ih1, ih2, ih3, ih4, ih5⟩ := ih cache hok
      refine ⟨?_, ?_, ?_, ?_, ?_⟩ <;> simp only [FactMatcher.span_loop, hfind]
      · simp [ih1, hstats]
      · exact ih2
      · intro k
        rw [ih3 k]
        constructor
        · rintro ⟨hnone, hk⟩
          refine ⟨hnone, fun hmem => ?_⟩
          rcases List.mem_cons.mp hmem with h | h
          · subst h
            rw [hfind] at hnone
            cases hnone
          · exact hk h
        · rintro ⟨hnone, hk⟩
          exact ⟨hnone, fun h => hk (List.mem_cons_of_mem s h)⟩
      · exact ih4
      · intro k
        rw [ih5 k]
        constructor
        · rintro ⟨hk, hnone⟩
          exact ⟨List.mem_cons_of_mem s hk, hnone⟩
        · rintro ⟨hk, hnone⟩
          rcases List.mem_cons.mp hk with h | h
          · subst h
            rw [hfind] at hnone
            cases hnone
          · exact ⟨h, hnone⟩
    | none =>
      have hok2 : cache_ok M items ((s, M.for_items items s.1 s.2) :: cache) := by
        intro k v hkv
        rw [cache_find_cons] at hkv
        by_cases hks : s = k
        · subst hks
          rw [if_pos rfl] at hkv
          cases hkv
          rfl
        · rw [if_neg hks] at hkv
          exact hok k v hkv
      obtain ⟨ih1, ih2, ih3, ih4, ih5⟩ :=
        ih ((s, M.for_items items s.1 s.2) :: cache) hok2
      refine ⟨?_, ?_, ?_, ?_, ?_⟩ <;> simp only [FactMatcher.span_loop, hfind]
      · simp [ih1]
      · exact ih2
      · intro k
        rw [ih3 k, cache_find_cons]
        constructor
        · rintro ⟨hcons, hk⟩
          by_cases hks : s = k
          · rw [if_pos hks] at hcons
            cases hcons
          · rw [if_neg hks] at hcons
            refine ⟨hcons, fun hmem => ?_⟩
            rcases List.mem_cons.mp hmem with h | h
            · exact hks h.symm
            · exact hk h
        · rintro ⟨hnone, hk⟩
          have hks : ¬s = k := by
            intro h
            exact hk (h ▸ List.mem_cons_self s rest)
          rw [if_neg hks]
          exact ⟨hnone, fun h => hk (List.mem_cons_of_mem s h)⟩
      · rw [List.nodup_cons]
        refine ⟨fun hmem => ?_, ih4⟩
        have := (ih5 s).mp hmem
        rw [cache_find_cons, if_pos rfl] at this
        cases this.2
      · intro k
        rw [List.mem_cons, ih5 k, cache_find_cons]
        constructor
        · rintro (h | ⟨hk, hnone⟩)
          · subst h
            exact ⟨List.mem_cons_self k rest, hfind⟩
          · by_cases hks : s = k
            · rw [if_pos hks] at hnone
              cases hnone
            · rw [if_neg hks] at hnone
              exact ⟨List.mem_cons_of_mem s hk, hnone⟩
        · rintro ⟨hk, hnone⟩
          by_cases hks : k = s
          · exact Or.inl hks
          · rcases List.mem_cons.mp hk with h | h
            · exact absurd h hks
            · refine Or.inr ⟨h, ?_⟩
              rw [if_neg (fun hh => hks hh.symm)]
              exact hnone

/-- Full characterization of the parse loop, lifting span_loop_spec over
the list of parses of one record. -/
theorem parse_loop_spec (M : FactMatcher) (items : List Nat) :
    ∀ (parses : List (List SpanKey)) (cache : Cache), cache_ok M items cache →
      (M.parse_loop items parses cache).1 =
        parses.map (fun parse => parse.map (fun s => M.for_items items s.1 s.2)) ∧
      cache_ok M items (M.parse_loop items parses cache).2.1 ∧
      (∀ k, cache_find (M.parse_loop items parses cache).2.1 k = none ↔
        (cache_find cache k = none ∧ ∀ parse ∈ parses, k ∉ parse)) ∧
      (M.parse_loop items parses cache).2.2.Nodup ∧
      (∀ k, k ∈ (M.parse_loop items parses cache).2.2 ↔
        ((∃ parse ∈ parses, k ∈ parse) ∧ cache_find cache k = none)) := by
  intro parses
  induction parses with
  | nil =>
    intro cache hok
    refine ⟨rfl, hok, ?_, List.nodup_nil, ?_⟩
    · intro k
      simp [FactMatcher.parse_loop]
    · intro k
      simp [FactMatcher.parse_loop]
  | cons parse rest ih =>
    intro cache hok
    obtain ⟨s1, s2, s3, s4, s5⟩ := span_loop_spec M items parse cache hok
    obtain ⟨p1, p2, p3, p4, p5⟩ := ih (M.span_loop items parse cache).2.1 s2
    refine ⟨?_, ?_, ?_, ?_, ?_⟩ <;> simp only [FactMatcher.parse_loop]
    · simp [s1, p1]
    · exact p2
    · intro k
      rw [p3 k, s3 k]
      constructor
      · rintro ⟨⟨hnone, hparse⟩, hrest⟩
        refine ⟨hnone, fun pr hpr => ?_⟩
        rcases List.mem_cons.mp hpr with h | h
        · exact h ▸ hparse
        · exact hrest pr h
      · rintro ⟨hnone, hall⟩
        exact ⟨⟨hnone, hall parse (List.mem_cons_self parse rest)⟩,
          fun pr hpr => hall pr (List.mem_cons_of_mem parse hpr)⟩
    · rw [List.nodup_append]
      refine ⟨s4, p4, ?_⟩
      intro k hk1 hk2
      have h1 := (s5 k).mp hk1
      have h2 := (p5 k).mp hk2
      exact ((s3 k).mp h2.2).2 h1.1
    · intro k
      rw [List.mem_append, s5 k, p5 k, s3 k]
      constructor
      · rintro (⟨hk, hnone⟩ | ⟨hex, hnone, hnotin⟩)
        · exact ⟨⟨parse, List.mem_cons_self parse rest, hk⟩, hnone⟩
        · obtain ⟨pr, hpr, hkpr⟩ := hex
          exact ⟨⟨pr, List.mem_cons_of_mem parse hpr, hkpr⟩, hnone⟩
      · rintro ⟨⟨pr, hpr, hkpr⟩, hnone⟩
        by_cases hkp : k ∈ parse
        · exact Or.inl ⟨hkp, hnone⟩
        · rcases List.mem_cons.mp hpr with h | h
          · exact absurd (h ▸ hkpr) hkp
          · exact Or.inr ⟨⟨pr, h, hkpr⟩, hnone, hkp⟩

/-- for_parses equals the uncached span-by-span evaluation. -/
theorem for_parses_uncached (M : FactMatcher) (c : Category) :
    M.for_parses c =
      c.parses.map (fun parse => parse.map (fun s => M.for_items c.members s.1 s.2)) :=
  (parse_loop_spec M c.members c.parses [] (fun _ _ h => by cases h)).1

/-- Claim C10: within one record, every span receives exactly the
histogram an uncached evaluation of that span would produce, for_items is
invoked exactly once per distinct (property path, value) key, and each
record of a stream is processed with a fresh cache, its outputs depending
only on that record. -/
theorem claim_C10 (M : FactMatcher) (category : Category) (records : List Category) :
    M.for_parses category =
      category.parses.map
        (fun parse => parse.map (fun s => M.for_items category.members s.1 s.2)) ∧
    (M.for_parses_calls category).Nodup ∧
    (∀ k, k ∈ M.for_parses_calls category ↔ ∃ parse ∈ category.parses, k ∈ parse) ∧
    M.run_records records =
      records.map (fun c =>
        c.parses.map (fun parse => parse.map (fun s => M.for_items c.members s.1 s.2))) := by
  have hempty : cache_ok M category.members [] := fun _ _ h => by cases h
  obtain ⟨p1, p2, p3, p4, p5⟩ :=
    parse_loop_spec M category.members category.parses [] hempty
  refine ⟨p1, p4, ?_, ?_⟩
  · intro k
    simpa [cache_find] using p5 k
  · unfold FactMatcher.run_records
    induction records with
    | nil => rfl
    | cons c rest ih =>
      simp only [List.map_cons, ih]
      rw [for_parses_uncached M c]

end FactMatcherModel
